import Mathlib

/-!
# Relevance Scoring and Heat-Ranking Engine — verification

A shallow embedding, in Lean 4, of the scoring core of the
`procurement-intel-tool` repository, together with theorems settling the
specification's claims about it.

Embedded code:
* `src/ai_scoring.py` — `KeywordScorer.score_text` (general weighted keyword
  scorer with diminishing returns and 0–100 normalization);
* `src/scoring.py` — `ScoringEngine` (recency / article-count / severity /
  entity-size sub-scores, heat-score aggregation, priority classification,
  `update_opportunity_score`, `recalculate_all_scores`);
* `src/rfp_discovery.py` — `RFPDiscoveryEngine.calculate_relevance`;
* `src/database.py` — the accessors the scoring engine calls
  (`get_opportunity`, `get_entity`, `get_opportunity_articles`,
  `update_opportunity`, `add_activity_log`), modelled as explicit state
  passing over a `DBState` record.

Python floats are embedded as `ℚ`; Python's `round(x, 1)` as `round1`
(round half up at one decimal); text as `List Char` with explicit
lower-casing and non-overlapping substring counting mirroring
`str.lower`/`str.count`/`re.search`.
-/

namespace ProcurementIntel

/-! ## Text primitives (`str.lower`, `str.count`, `re.search`) -/

/-- Python `s.lower()` (character-wise lower-casing). -/
def lowerStr (s : List Char) : List Char := s.map Char.toLower

/-- Whether the first list is an initial segment of the second. -/
def leadsWith : List Char → List Char → Bool
  | [], _ => true
  | _ :: _, [] => false
  | a :: needle, b :: hay => a == b && leadsWith needle hay

/-- Left-to-right non-overlapping occurrence scan; `fuel` bounds the
recursion by the remaining haystack length (a matched needle advances the
scan past the whole match, as Python's `str.count` does). -/
def countOccAux (needle : List Char) : Nat → List Char → Nat
  | 0, _ => 0
  | _ + 1, [] => 0
  | fuel + 1, c :: t =>
    if leadsWith needle (c :: t) then
      1 + countOccAux needle fuel ((c :: t).drop needle.length)
    else
      countOccAux needle fuel t

/-- Number of non-overlapping occurrences of `needle` in `hay`. -/
def countOcc (needle hay : List Char) : Nat := countOccAux needle hay.length hay

/-- Python `hay.count(needle)`, including the empty-needle convention
`hay.count("") = len(hay) + 1`. -/
def pyCount (needle hay : List Char) : Nat :=
  if needle = [] then hay.length + 1 else countOcc needle hay

/-- Python `re.search(re.escape(needle), hay) is not None`: the needle
occurs as a substring at some position. -/
def hasSub (needle : List Char) : List Char → Bool
  | [] => leadsWith needle []
  | c :: t => leadsWith needle (c :: t) || hasSub needle t

/-! ## `ai_scoring.KeywordScorer.score_text` -/

/-- One entry of the `matches` list built by `score_text`. -/
structure KwMatch where
  keyword : List Char
  weight : ℚ
  count : Nat
  score : ℚ
deriving DecidableEq, Repr

/-- Per-keyword contribution with diminishing returns:
`weight * (1 + 0.2 * (count - 1))` (ai_scoring.py line 193). -/
def kwContribution (weight : ℚ) (count : Nat) : ℚ :=
  weight * (1 + (2 / 10) * ((count : ℚ) - 1))

/-- The match records accumulated by the `for keyword, weight in
self.all_keywords.items()` loop of `score_text`: a keyword with zero
occurrences is skipped, one with `count > 0` contributes a record. -/
def scoreMatches (all_keywords : List (List Char × ℚ)) (text_lower : List Char) :
    List KwMatch :=
  all_keywords.filterMap fun kw =>
    let count := pyCount (lowerStr kw.1) text_lower
    if 0 < count then
      some ⟨kw.1, kw.2, count, kwContribution kw.2 count⟩
    else
      none

/-- The loop's running `total_score`: the sum of all match contributions. -/
def rawTotal (all_keywords : List (List Char × ℚ)) (text_lower : List Char) : ℚ :=
  ((scoreMatches all_keywords text_lower).map KwMatch.score).sum

/-- `min(100, max(0, (total_score / 25) * 100))` (ai_scoring.py line 204). -/
def normalized_score (total_score : ℚ) : ℚ :=
  min 100 (max 0 (total_score / 25 * 100))

/-- `KeywordScorer.score_text`: empty text short-circuits to `(0, [])`;
otherwise the normalized total plus the matches sorted by descending
contribution (Python's stable `sorted(..., reverse=True)`). -/
def score_text (all_keywords : List (List Char × ℚ)) (text : List Char) :
    ℚ × List KwMatch :=
  if text = [] then (0, [])
  else
    let text_lower := lowerStr text
    let ms := scoreMatches all_keywords text_lower
    (normalized_score (rawTotal all_keywords text_lower),
     ms.mergeSort fun a b => decide (b.score ≤ a.score))

/-! ## `scoring.ScoringEngine` sub-scores -/

/-- `SEVERITY_MULTIPLIERS` (scoring.py lines 29–35). -/
def SEVERITY_MULTIPLIERS : List (String × ℚ) :=
  [("legal", 15 / 10), ("procurement", 13 / 10), ("ethics", 12 / 10),
   ("audit", 11 / 10), ("budget", 1)]

/-- `calculate_recency_score`: the first-detected timestamp is embedded as
an absolute day number, `now - d` being Python's `(datetime.now() -
first_detected).days`; a missing timestamp defaults to 50. -/
def calculate_recency_score (first_detected : Option ℤ) (now : ℤ) : ℚ :=
  match first_detected with
  | none => 50
  | some d =>
    let days_old := now - d
    if days_old ≤ 7 then 100
    else if days_old ≤ 14 then 90
    else if days_old ≤ 30 then 75
    else if days_old ≤ 60 then 50
    else if days_old ≤ 90 then 30
    else 10

/-- `calculate_article_count_score` (scoring.py lines 71–85). -/
def calculate_article_count_score (article_count : Nat) : ℚ :=
  if article_count ≥ 10 then 100
  else if article_count ≥ 5 then 80
  else if article_count ≥ 3 then 60
  else if article_count ≥ 2 then 40
  else 20

/-- `calculate_severity_score`: `min(100, 70 * multiplier)` with the
multiplier looked up in `SEVERITY_MULTIPLIERS` (default 1.0; a `None`
issue type is not a key, so it also gets 1.0). -/
def calculate_severity_score (issue_type : Option String) : ℚ :=
  let multiplier : ℚ :=
    match issue_type with
    | some t => ((SEVERITY_MULTIPLIERS.find? fun p => p.1 == t).map Prod.snd).getD 1
    | none => 1
  min 100 (70 * multiplier)

/-- A `GovernmentEntity` record as read by the scoring engine; `none`
fields model missing/NULL columns (`entity.get(..., 0) or 0`). -/
structure Entity where
  population : Option ℤ
  annual_budget : Option ℚ
deriving DecidableEq, Repr

/-- The population breakpoints of `calculate_entity_size_score`. -/
def popScore (population : ℤ) : ℚ :=
  if population ≥ 500000 then 100
  else if population ≥ 200000 then 80
  else if population ≥ 100000 then 60
  else if population ≥ 50000 then 40
  else 20

/-- The budget breakpoints of `calculate_entity_size_score`. -/
def budgetScore (budget : ℚ) : ℚ :=
  if budget ≥ 1000000000 then 100
  else if budget ≥ 500000000 then 80
  else if budget ≥ 100000000 then 60
  else if budget > 0 then 40
  else 0

/-- `calculate_entity_size_score` (scoring.py lines 92–127). -/
def calculate_entity_size_score (entity : Entity) : ℚ :=
  let pop_score := popScore (entity.population.getD 0)
  let budget_score := budgetScore (entity.annual_budget.getD 0)
  if budget_score > 0 ∧ pop_score > 0 then (pop_score + budget_score) / 2
  else if budget_score > 0 then max pop_score budget_score
  else pop_score

/-! ## Heat aggregation and priority classification -/

/-- An `opportunities` row as the scoring engine reads it. -/
structure Opportunity where
  heat_score : ℚ
  priority : String
  issue_type : Option String
  first_detected : Option ℤ
  entity_id : ℤ
deriving DecidableEq, Repr

/-- `len(articles) if articles else 1`: both a missing and an empty
article list count as 1 (Python truthiness). -/
def articleCountOf (articles : Option (List Unit)) : Nat :=
  match articles with
  | some l => if l.isEmpty then 1 else l.length
  | none => 1

/-- The `if entity: ... else: 50` branch of `calculate_heat_score`. -/
def entitySizeOrDefault (entity : Option Entity) : ℚ :=
  match entity with
  | some e => calculate_entity_size_score e
  | none => 50

/-- Python `round(x, 1)`, embedded as round-half-up at one decimal. -/
def round1 (x : ℚ) : ℚ := (⌊x * 10 + 1 / 2⌋ : ℤ) / 10

/-- `ScoringEngine.calculate_heat_score` (scoring.py lines 129–162):
weighted sum of the five sub-scores with the `WEIGHTS` constants, clamped
to [0,100] and rounded to one decimal. The stored `heat_score` of the
record is reused as the keyword sub-score. -/
def calculate_heat_score (opportunity : Opportunity) (articles : Option (List Unit))
    (entity : Option Entity) (now : ℤ) : ℚ :=
  let keyword_score := opportunity.heat_score
  let recency := calculate_recency_score opportunity.first_detected now
  let article_count_score := calculate_article_count_score (articleCountOf articles)
  let severity := calculate_severity_score opportunity.issue_type
  let entity_size := entitySizeOrDefault entity
  let total_score :=
    keyword_score * (35 / 100) + recency * (25 / 100) + article_count_score * (15 / 100)
      + severity * (15 / 100) + entity_size * (10 / 100)
  round1 (min 100 (max 0 total_score))

/-- `ScoringEngine.determine_priority`: the `PRIORITY_THRESHOLDS` dict
iterated in descending threshold order (urgent 85, high 70, medium 40,
low 0) with a final `'low'` fallback. -/
def determine_priority (heat_score : ℚ) : String :=
  if heat_score ≥ 85 then "urgent"
  else if heat_score ≥ 70 then "high"
  else if heat_score ≥ 40 then "medium"
  else if heat_score ≥ 0 then "low"
  else "low"

/-! ## The persistence collaborator (`database.py`) and the update
transitions, as explicit state passing -/

/-- First row whose id matches (SQL `SELECT ... WHERE id = ?`). -/
def lookupAssoc {α : Type} : List (ℤ × α) → ℤ → Option α
  | [], _ => none
  | p :: t, i => if p.1 = i then some p.2 else lookupAssoc t i

/-- The slice of the database the scoring engine touches. -/
structure DBState where
  opportunities : List (ℤ × Opportunity)
  entities : List (ℤ × Entity)
  articles : List (ℤ × List Unit)
  activity_log : List (ℤ × String × String)
deriving DecidableEq

/-- `db.get_opportunity` (database.py lines 424–436): `SELECT o.* FROM
opportunities o JOIN entities e ON o.entity_id = e.id WHERE o.id = ?`.
The inner join makes a row whose `entity_id` references a deleted entity
invisible: the call returns `None` for it. -/
def get_opportunity (st : DBState) (opportunity_id : ℤ) : Option Opportunity :=
  match lookupAssoc st.opportunities opportunity_id with
  | some o => if (lookupAssoc st.entities o.entity_id).isSome then some o else none
  | none => none

def get_entity (st : DBState) (entity_id : ℤ) : Option Entity :=
  lookupAssoc st.entities entity_id

/-- `get_opportunity_articles` returns a (possibly empty) list of linked
articles; only their number matters to the engine. -/
def get_opportunity_articles (st : DBState) (opportunity_id : ℤ) : List Unit :=
  (lookupAssoc st.articles opportunity_id).getD []

/-- `db.update_opportunity(id, heat_score=..., priority=...)`: rewrite the
two columns of every row with the given id. -/
def update_opportunity (st : DBState) (opportunity_id : ℤ) (heat_score : ℚ)
    (priority : String) : DBState :=
  { st with
    opportunities := st.opportunities.map fun p =>
      if p.1 = opportunity_id then
        (p.1, { p.2 with heat_score := heat_score, priority := priority })
      else p }

/-- `db.add_activity_log`: append one audit row. -/
def add_activity_log (st : DBState) (opportunity_id : ℤ)
    (activity_type description : String) : DBState :=
  { st with activity_log := st.activity_log ++ [(opportunity_id, activity_type, description)] }

/-- `db.get_all_opportunities()` as `recalculate_all_scores` calls it
(database.py lines 439–465, `status=None`, `min_heat_score=None`): the
same `JOIN entities e ON o.entity_id = e.id`, so rows referencing deleted
entities are filtered out of the result. The query's
`ORDER BY o.heat_score DESC, o.last_activity DESC` is not modelled — its
secondary key `last_activity` lies outside the embedded columns, and the
scoring engine only folds over the rows one by one, so membership, not
order, determines its behaviour. -/
def get_all_opportunities (st : DBState) : List (ℤ × Opportunity) :=
  st.opportunities.filter fun p => (lookupAssoc st.entities p.2.entity_id).isSome

/-- `ScoringEngine.update_opportunity_score` (scoring.py lines 172–200):
recompute heat and priority from the stored record, its articles and its
entity; persist and log only when either value changed; return the
refreshed record (`None` when the id is absent). -/
def update_opportunity_score (st : DBState) (now : ℤ) (opportunity_id : ℤ) :
    DBState × Option Opportunity :=
  match get_opportunity st opportunity_id with
  | none => (st, none)
  | some opportunity =>
    let articles := get_opportunity_articles st opportunity_id
    let entity := get_entity st opportunity.entity_id
    let new_score := calculate_heat_score opportunity (some articles) entity now
    let new_priority := determine_priority new_score
    let st' :=
      if new_score ≠ opportunity.heat_score ∨ new_priority ≠ opportunity.priority then
        add_activity_log (update_opportunity st opportunity_id new_score new_priority)
          opportunity_id "score_updated"
          ("Heat score updated from " ++ toString opportunity.heat_score
            ++ " to " ++ toString new_score)
      else st
    (st', some { opportunity with heat_score := new_score, priority := new_priority })

/-- `ScoringEngine.recalculate_all_scores` (scoring.py lines 202–217):
fold `update_opportunity_score` over a snapshot of all opportunities,
counting the records whose `heat_score` came back different. -/
def recalculate_all_scores (st : DBState) (now : ℤ) : DBState × Nat :=
  (get_all_opportunities st).foldl
    (fun acc p =>
      let old_score := p.2.heat_score
      let r := update_opportunity_score acc.1 now p.1
      match r.2 with
      | some updated => (r.1, if updated.heat_score ≠ old_score then acc.2 + 1 else acc.2)
      | none => (r.1, acc.2))
    (st, 0)

/-! ## `rfp_discovery.RFPDiscoveryEngine.calculate_relevance` -/

/-- One row of the RFP keyword table (`rfp_keywords`). -/
structure RfpKeyword where
  keyword : List Char
  category : String
  weight : ℚ
deriving DecidableEq, Repr

/-- `matched_categories[cat] = matched_categories.get(cat, 0) + weight`:
dict-style accumulation that keeps first-insertion order. -/
def addToCategory : List (String × ℚ) → String → ℚ → List (String × ℚ)
  | [], cat, w => [(cat, w)]
  | p :: t, cat, w =>
    if p.1 = cat then (p.1, p.2 + w) :: t else p :: addToCategory t cat w

/-- Python `max(d, key=d.get)`: the first key attaining the maximal value
in iteration order (a later key replaces only on strict increase). -/
def maxByValue : List (String × ℚ) → Option String
  | [] => none
  | p :: t => some ((t.foldl (fun best q => if best.2 < q.2 then q else best) p).1)

/-- The keyword loop of `calculate_relevance`: presence-gated (one
`re.search` per keyword), each present keyword adds its weight once to the
total and to its category bucket. -/
def relevanceTotals (keyword_patterns : List RfpKeyword) (text : List Char) :
    ℚ × List (String × ℚ) :=
  keyword_patterns.foldl
    (fun acc kw =>
      if hasSub (lowerStr kw.keyword) text then
        (acc.1 + kw.weight, addToCategory acc.2 kw.category kw.weight)
      else acc)
    (0, [])

/-- `RFPDiscoveryEngine.calculate_relevance` (rfp_discovery.py lines
46–65): lower-case the concatenated `f"{title} {description}"`, sum the
weights of the present keywords, threshold at 2.0. -/
def calculate_relevance (keyword_patterns : List RfpKeyword)
    (title description : List Char) : Bool × ℚ × Option String :=
  let text := lowerStr (title ++ ' ' :: description)
  let totals := relevanceTotals keyword_patterns text
  (decide (totals.1 ≥ 2), totals.1, maxByValue totals.2)

/-! ## Helper lemmas -/

lemma popScore_pos (p : ℤ) : 0 < popScore p := by
  unfold popScore; split_ifs <;> norm_num

/-! ## Claim theorems -/

/-- C1: for every opportunity record, the aggregated heat score equals
`round1 (clamp 0 100 (0.35*k + 0.25*r + 0.15*a + 0.15*s + 0.10*e))` where
`k, r, a, s, e` are the keyword, recency, article-volume, severity and
entity-size sub-scores; in particular `k=80, r=100, a=100, s=100, e=100`
(days_since=0, 10 articles, issue `legal`, population 600000) yields
exactly 93.0 with priority `urgent`. -/
theorem heat_is_weighted_clamped_rounded_sum :
    (∀ (opp : Opportunity) (articles : Option (List Unit)) (entity : Option Entity) (now : ℤ),
      calculate_heat_score opp articles entity now =
        round1 (min 100 (max 0 (
          (35 / 100) * opp.heat_score
          + (25 / 100) * calculate_recency_score opp.first_detected now
          + (15 / 100) * calculate_article_count_score (articleCountOf articles)
          + (15 / 100) * calculate_severity_score opp.issue_type
          + (10 / 100) * entitySizeOrDefault entity))))
    ∧ calculate_heat_score ⟨80, "high", some "legal", some 0, 7⟩
        (some (List.replicate 10 ())) (some ⟨some 600000, none⟩) 0 = 93
    ∧ determine_priority (calculate_heat_score ⟨80, "high", some "legal", some 0, 7⟩
        (some (List.replicate 10 ())) (some ⟨some 600000, none⟩) 0) = "urgent" := by
  refine ⟨fun opp articles entity now => ?_, ?_, ?_⟩
  · unfold calculate_heat_score
    exact congrArg round1 (congrArg (min 100) (congrArg (max 0) (by ring)))
  · norm_num [calculate_heat_score, calculate_recency_score, calculate_article_count_score,
      calculate_severity_score, SEVERITY_MULTIPLIERS, List.find?, entitySizeOrDefault,
      calculate_entity_size_score, popScore, budgetScore, articleCountOf, round1]
  · norm_num [calculate_heat_score, calculate_recency_score, calculate_article_count_score,
      calculate_severity_score, SEVERITY_MULTIPLIERS, List.find?, entitySizeOrDefault,
      calculate_entity_size_score, popScore, budgetScore, articleCountOf, round1,
      determine_priority]

/-- C3: `determine_priority` classifies by the fixed descending thresholds
85/70/40 — `urgent`, `high`, `medium`, else `low` — with exact
boundaries: 85.0 ↦ urgent, 84.9 ↦ high, 70.0 ↦ high, 40.0 ↦ medium. -/
theorem priority_threshold_table :
    (∀ h : ℚ,
      (85 ≤ h → determine_priority h = "urgent")
      ∧ (70 ≤ h → h < 85 → determine_priority h = "high")
      ∧ (40 ≤ h → h < 70 → determine_priority h = "medium")
      ∧ (h < 40 → determine_priority h = "low"))
    ∧ determine_priority 85 = "urgent"
    ∧ determine_priority (849 / 10) = "high"
    ∧ determine_priority 70 = "high"
    ∧ determine_priority 40 = "medium" := by
  refine ⟨fun h => ⟨fun h1 => ?_, fun h1 h2 => ?_, fun h1 h2 => ?_, fun h1 => ?_⟩, ?_, ?_, ?_, ?_⟩
  · unfold determine_priority
    rw [if_pos (by linarith)]
  · unfold determine_priority
    rw [if_neg (by linarith), if_pos (by linarith)]
  · unfold determine_priority
    rw [if_neg (by linarith), if_neg (by linarith), if_pos (by linarith)]
  · unfold determine_priority
    rw [if_neg (by linarith), if_neg (by linarith), if_neg (by linarith)]
    split_ifs <;> rfl
  all_goals norm_num [determine_priority]

/-- C3 witness: the threshold table instantiated at 90, 72, 55 and 10. -/
theorem priority_threshold_table_witness :
    determine_priority 90 = "urgent" ∧ determine_priority 72 = "high"
    ∧ determine_priority 55 = "medium" ∧ determine_priority 10 = "low" :=
  ⟨(priority_threshold_table.1 90).1 (by norm_num),
   (priority_threshold_table.1 72).2.1 (by norm_num) (by norm_num),
   (priority_threshold_table.1 55).2.2.1 (by norm_num) (by norm_num),
   (priority_threshold_table.1 10).2.2.2 (by norm_num)⟩

/-- C5 counterexample: the claim asserts that an entity record that is
present but has zero population and zero budget computes an entity-size
score of 0; the code computes 20, because the population breakpoints
bottom out at 20, never 0. -/
theorem entity_size_zero_entity_counterexample :
    calculate_entity_size_score ⟨some 0, some 0⟩ = 20
    ∧ calculate_entity_size_score ⟨some 0, some 0⟩ ≠ 0
    ∧ calculate_entity_size_score ⟨none, none⟩ = 20 := by
  norm_num [calculate_entity_size_score, popScore, budgetScore]

/-- C5 (amended): the entity-size sub-score defaults to 50 exactly when no
entity record is supplied at all; an entity record that is present but has
zero (or absent) population and zero (or absent) budget scores 20, the
bottom population breakpoint (never 0); when the budget-derived score is
nonzero the result is the arithmetic mean of the population- and
budget-derived scores (the population-derived score is always positive),
and when the budget-derived score is zero the population-derived score
alone is used. -/
theorem entity_size_semantics :
    entitySizeOrDefault none = 50
    ∧ (∀ e : Entity, entitySizeOrDefault (some e) = calculate_entity_size_score e)
    ∧ (∀ e : Entity, e.population.getD 0 ≤ 0 → e.annual_budget.getD 0 ≤ 0 →
        calculate_entity_size_score e = 20)
    ∧ (∀ e : Entity, 0 < budgetScore (e.annual_budget.getD 0) →
        calculate_entity_size_score e =
          (popScore (e.population.getD 0) + budgetScore (e.annual_budget.getD 0)) / 2)
    ∧ (∀ e : Entity, budgetScore (e.annual_budget.getD 0) = 0 →
        calculate_entity_size_score e = popScore (e.population.getD 0)) := by
  refine ⟨rfl, fun e => rfl, fun e hp hb => ?_, fun e hb => ?_, fun e hb => ?_⟩
  · have h1 : popScore (e.population.getD 0) = 20 := by
      unfold popScore
      rw [if_neg (by omega), if_neg (by omega), if_neg (by omega), if_neg (by omega)]
    have h2 : budgetScore (e.annual_budget.getD 0) = 0 := by
      unfold budgetScore
      rw [if_neg (by linarith), if_neg (by linarith), if_neg (by linarith),
        if_neg (by linarith)]
    unfold calculate_entity_size_score
    rw [h1, h2]
    norm_num
  · unfold calculate_entity_size_score
    rw [if_pos ⟨hb, popScore_pos _⟩]
  · unfold calculate_entity_size_score
    rw [if_neg (by rw [hb]; rintro ⟨h, -⟩; exact lt_irrefl 0 h), if_neg (by rw [hb]; exact lt_irrefl 0)]

/-- C5 witness: the amended statement instantiated at a present entity
with zero population and zero budget (scores 20), at an entity with a
large population and a mid-size budget (the mean of 100 and 60), and at a
population-only entity. -/
theorem entity_size_semantics_witness :
    calculate_entity_size_score ⟨some 0, some 0⟩ = 20
    ∧ calculate_entity_size_score ⟨some 600000, some 100000000⟩ = (100 + 60) / 2
    ∧ calculate_entity_size_score ⟨some 600000, none⟩ = 100 := by
  refine ⟨entity_size_semantics.2.2.1 ⟨some 0, some 0⟩ (by norm_num) (by norm_num), ?_, ?_⟩
  · have h := entity_size_semantics.2.2.2.1 ⟨some 600000, some 100000000⟩
      (by norm_num [budgetScore])
    rw [h]
    norm_num [popScore, budgetScore]
  · have h := entity_size_semantics.2.2.2.2 ⟨some 600000, none⟩ (by norm_num [budgetScore])
    rw [h]
    norm_num [popScore]

/-- C6: the normalized keyword score is `clamp 0 100 ((t / 25) * 100)` of
the raw total `t`: 0 ↦ 0, 25 ↦ 100, 50 ↦ 100 (clamped, not 200), never
below 0 even for negative totals; and `score_text` applies exactly this
normalization to the raw total of its match contributions. -/
theorem keyword_normalization_clamp :
    normalized_score 0 = 0 ∧ normalized_score 25 = 100 ∧ normalized_score 50 = 100
    ∧ (∀ t : ℚ, t ≤ 0 → normalized_score t = 0)
    ∧ (∀ t : ℚ, 0 ≤ normalized_score t)
    ∧ (∀ (all_keywords : List (List Char × ℚ)) (text : List Char), text ≠ [] →
        (score_text all_keywords text).1 = normalized_score (rawTotal all_keywords (lowerStr text))) := by
  refine ⟨by norm_num [normalized_score], by norm_num [normalized_score],
    by norm_num [normalized_score], fun t ht => ?_, fun t => ?_, fun ks text ht => ?_⟩
  · unfold normalized_score
    rw [max_eq_left (by nlinarith), min_eq_right (by norm_num)]
  · exact le_min (by norm_num) (le_max_left 0 _)
  · simp [score_text, ht]

/-- C6 witness: the clamp instantiated at the negative total −5 and the
`score_text` equation instantiated at a concrete keyword table and text. -/
theorem keyword_normalization_clamp_witness :
    normalized_score (-5) = 0
    ∧ (score_text [(['z'], 2)] ['a']).1 = normalized_score (rawTotal [(['z'], 2)] (lowerStr ['a'])) :=
  ⟨keyword_normalization_clamp.2.2.2.1 (-5) (by norm_num),
   keyword_normalization_clamp.2.2.2.2.2 [(['z'], 2)] ['a'] (by decide)⟩

/-- The running total of the `calculate_relevance` keyword loop is the sum
of the weights of the present keywords, each counted once. -/
lemma relevanceTotals_fst (table : List RfpKeyword) (text : List Char) :
    (relevanceTotals table text).1 =
      ((table.filter fun kw => hasSub (lowerStr kw.keyword) text).map RfpKeyword.weight).sum := by
  have H : ∀ (t : List RfpKeyword) (acc : ℚ × List (String × ℚ)),
      (t.foldl
        (fun acc kw =>
          if hasSub (lowerStr kw.keyword) text then
            (acc.1 + kw.weight, addToCategory acc.2 kw.category kw.weight)
          else acc) acc).1 =
      acc.1 + ((t.filter fun kw => hasSub (lowerStr kw.keyword) text).map RfpKeyword.weight).sum := by
    intro t
    induction t with
    | nil => intro acc; simp
    | cons kw tl ih =>
      intro acc
      by_cases hkw : hasSub (lowerStr kw.keyword) text = true
      · simp only [List.foldl_cons, List.filter_cons, hkw, if_pos, List.map_cons, List.sum_cons]
        rw [ih]
        ring
      · simp only [List.foldl_cons, List.filter_cons, hkw]
        rw [if_neg (by simp [hkw]), ih]
        simp [hkw]
  have := H table (0, [])
  unfold relevanceTotals
  rw [this, zero_add]

/-- The `calculate_relevance` keyword loop depends only on the per-keyword
presence booleans. -/
lemma relevanceTotals_congr (table : List RfpKeyword) (x y : List Char)
    (h : ∀ kw ∈ table, hasSub (lowerStr kw.keyword) x = hasSub (lowerStr kw.keyword) y) :
    relevanceTotals table x = relevanceTotals table y := by
  have H : ∀ (t : List RfpKeyword),
      (∀ kw ∈ t, hasSub (lowerStr kw.keyword) x = hasSub (lowerStr kw.keyword) y) →
      ∀ acc : ℚ × List (String × ℚ),
      (t.foldl
        (fun acc kw =>
          if hasSub (lowerStr kw.keyword) x then
            (acc.1 + kw.weight, addToCategory acc.2 kw.category kw.weight)
          else acc) acc) =
      (t.foldl
        (fun acc kw =>
          if hasSub (lowerStr kw.keyword) y then
            (acc.1 + kw.weight, addToCategory acc.2 kw.category kw.weight)
          else acc) acc) := by
    intro t
    induction t with
    | nil => intro _ _; rfl
    | cons kw tl ih =>
      intro hh acc
      simp only [List.foldl_cons]
      rw [hh kw (List.mem_cons_self ..)]
      exact ih (fun q hq => hh q (List.mem_cons_of_mem _ hq)) _
  exact H table h (0, [])

/-- C7: the RFP relevance flag is `total weighted keyword score ≥ 2.0`,
exactly: a one-keyword table of weight 1.9 matching the title yields
`is_relevant = false` at total 1.9, and weight 2.0 yields `true` at
total exactly 2.0. -/
theorem rfp_relevance_threshold :
    (∀ (table : List RfpKeyword) (title description : List Char),
      (calculate_relevance table title description).1 = true
        ↔ 2 ≤ (calculate_relevance table title description).2.1)
    ∧ (calculate_relevance [⟨"study".toList, "professional_services", 19 / 10⟩]
        "study".toList []).2.1 = 19 / 10
    ∧ (calculate_relevance [⟨"study".toList, "professional_services", 19 / 10⟩]
        "study".toList []).1 = false
    ∧ (calculate_relevance [⟨"study".toList, "professional_services", 2⟩]
        "study".toList []).2.1 = 2
    ∧ (calculate_relevance [⟨"study".toList, "professional_services", 2⟩]
        "study".toList []).1 = true := by
  have hocc : hasSub (lowerStr ['s', 't', 'u', 'd', 'y'])
      (lowerStr ['s', 't', 'u', 'd', 'y', ' ']) = true := by decide
  refine ⟨fun table title description => ?_, ?_, ?_, ?_, ?_⟩
  · simp [calculate_relevance, ge_iff_le]
  all_goals
    norm_num [calculate_relevance, relevanceTotals, hocc, addToCategory]

/-- C10: the RFP relevance classifier is presence-based — each keyword in
the table contributes its weight at most once per call, and the whole
result depends only on which keywords occur in the lower-cased
`title description` text, never on how many times. -/
theorem rfp_presence_only_scoring :
    (∀ (table : List RfpKeyword) (title description : List Char),
      (calculate_relevance table title description).2.1 =
        ((table.filter fun kw =>
            hasSub (lowerStr kw.keyword) (lowerStr (title ++ ' ' :: description))).map
          RfpKeyword.weight).sum)
    ∧ (∀ (table : List RfpKeyword) (t1 d1 t2 d2 : List Char),
        (∀ kw ∈ table,
          hasSub (lowerStr kw.keyword) (lowerStr (t1 ++ ' ' :: d1))
            = hasSub (lowerStr kw.keyword) (lowerStr (t2 ++ ' ' :: d2))) →
        calculate_relevance table t1 d1 = calculate_relevance table t2 d2) := by
  constructor
  · intro table title description
    have := relevanceTotals_fst table (lowerStr (title ++ ' ' :: description))
    simpa [calculate_relevance] using this
  · intro table t1 d1 t2 d2 h
    simp only [calculate_relevance]
    rw [relevanceTotals_congr table _ _ h]

/-- C10 witness: a text containing `data` once and a text containing it
twice classify identically. -/
theorem rfp_presence_only_scoring_witness :
    calculate_relevance [⟨"data".toList, "data", 3 / 2⟩] "data".toList []
      = calculate_relevance [⟨"data".toList, "data", 3 / 2⟩] "data data".toList [] :=
  rfp_presence_only_scoring.2 _ _ _ _ _ (by decide)

/-- C2: in the general text scorer (`KeywordScorer.score_text`), a keyword
of weight `w` occurring `n ≥ 1` times (non-overlapping, case-insensitive)
contributes `w * (1 + 0.2 * (n - 1))` to the match list, and a keyword
with zero occurrences is omitted from the match list. -/
theorem keyword_diminishing_returns (all_keywords : List (List Char × ℚ))
    (text kw : List Char) (w : ℚ) (n : Nat)
    (htext : text ≠ []) (hmem : (kw, w) ∈ all_keywords)
    (hn : pyCount (lowerStr kw) (lowerStr text) = n) :
    (1 ≤ n →
      (⟨kw, w, n, w * (1 + (2 / 10) * ((n : ℚ) - 1))⟩ : KwMatch)
        ∈ (score_text all_keywords text).2)
    ∧ (n = 0 → ∀ m ∈ (score_text all_keywords text).2, m.keyword ≠ kw) := by
  have hsnd : (score_text all_keywords text).2
      = (scoreMatches all_keywords (lowerStr text)).mergeSort
          fun a b => decide (b.score ≤ a.score) := by
    simp [score_text, htext]
  constructor
  · intro h1
    rw [hsnd, List.mem_mergeSort]
    refine List.mem_filterMap.mpr ⟨(kw, w), hmem, ?_⟩
    show (if 0 < pyCount (lowerStr kw) (lowerStr text) then
        some (⟨kw, w, pyCount (lowerStr kw) (lowerStr text),
          kwContribution w (pyCount (lowerStr kw) (lowerStr text))⟩ : KwMatch)
      else none) = _
    rw [hn, if_pos (show 0 < n from h1)]
    simp [kwContribution]
  · intro h0 m hm hkw
    rw [hsnd, List.mem_mergeSort] at hm
    obtain ⟨a, ha, hfa⟩ := List.mem_filterMap.mp hm
    have hfa' : (if 0 < pyCount (lowerStr a.1) (lowerStr text) then
        some (⟨a.1, a.2, pyCount (lowerStr a.1) (lowerStr text),
          kwContribution a.2 (pyCount (lowerStr a.1) (lowerStr text))⟩ : KwMatch)
      else none) = some m := hfa
    by_cases hc : 0 < pyCount (lowerStr a.1) (lowerStr text)
    · rw [if_pos hc] at hfa'
      have hkey : m.keyword = a.1 := by rw [← Option.some.inj hfa']
      rw [hkey] at hkw
      rw [hkw, hn, h0] at hc
      exact absurd hc (by omega)
    · rw [if_neg hc] at hfa'
      exact Option.noConfusion hfa'

/-- C2 witness: weight 2.0 occurring 3 times contributes
`2 * (1 + 0.2 * 2) = 2.8`, and an absent keyword appears in no match. -/
theorem keyword_diminishing_returns_witness :
    ((⟨['z'], 2, 3, 2 * (1 + (2 / 10) * ((3 : ℚ) - 1))⟩ : KwMatch)
      ∈ (score_text [(['z'], 2)] ['z', 'z', 'z']).2)
    ∧ (∀ m ∈ (score_text [(['q'], 5), (['z'], 2)] ['z', 'z', 'z']).2, m.keyword ≠ ['q']) :=
  ⟨(keyword_diminishing_returns [(['z'], 2)] ['z', 'z', 'z'] ['z'] 2 3
      (by decide) (List.mem_singleton.mpr rfl) (by decide)).1 (by norm_num),
   (keyword_diminishing_returns [(['q'], 5), (['z'], 2)] ['z', 'z', 'z'] ['q'] 5 0
      (by decide) (List.mem_cons_self ..) (by decide)).2 rfl⟩

/-! ## State-transition lemmas for `update_opportunity_score` -/

lemma lookupAssoc_nodup_mem {α : Type} (l : List (ℤ × α)) (hnd : (l.map Prod.fst).Nodup)
    {i : ℤ} {a : α} (h : (i, a) ∈ l) : lookupAssoc l i = some a := by
  induction l with
  | nil => simp at h
  | cons p t ih =>
    simp only [List.map_cons, List.nodup_cons] at hnd
    rcases List.mem_cons.mp h with h1 | h1
    · rw [← h1]
      simp [lookupAssoc]
    · have hne : p.1 ≠ i := by
        intro he
        exact hnd.1 (he ▸ List.mem_map.mpr ⟨(i, a), h1, rfl⟩)
      rw [lookupAssoc, if_neg hne]
      exact ih hnd.2 h1

lemma lookupAssoc_map_update_self (l : List (ℤ × Opportunity)) (i : ℤ) (ns : ℚ) (np : String)
    (o : Opportunity) (h : lookupAssoc l i = some o) :
    lookupAssoc
      (l.map fun p =>
        if p.1 = i then (p.1, { p.2 with heat_score := ns, priority := np }) else p) i
      = some { o with heat_score := ns, priority := np } := by
  induction l with
  | nil => simp [lookupAssoc] at h
  | cons p t ih =>
    rw [lookupAssoc] at h
    by_cases hp : p.1 = i
    · rw [if_pos hp] at h
      simp only [List.map_cons, if_pos hp, lookupAssoc]
      rw [Option.some.inj h]
    · rw [if_neg hp] at h
      simp only [List.map_cons, if_neg hp, lookupAssoc]
      exact ih h

lemma lookupAssoc_map_update_ne (l : List (ℤ × Opportunity)) (i j : ℤ) (ns : ℚ) (np : String)
    (hij : j ≠ i) :
    lookupAssoc
      (l.map fun p =>
        if p.1 = i then (p.1, { p.2 with heat_score := ns, priority := np }) else p) j
      = lookupAssoc l j := by
  induction l with
  | nil => rfl
  | cons p t ih =>
    by_cases hp : p.1 = i
    · have hpj : p.1 ≠ j := by rw [hp]; exact fun he => hij he.symm
      simp only [List.map_cons, if_pos hp, lookupAssoc]
      rw [if_neg hpj, if_neg hpj]
      exact ih
    · simp only [List.map_cons, if_neg hp, lookupAssoc]
      by_cases hpj : p.1 = j
      · rw [if_pos hpj, if_pos hpj]
      · rw [if_neg hpj, if_neg hpj]
        exact ih

lemma update_score_entities (st : DBState) (now i : ℤ) :
    (update_opportunity_score st now i).1.entities = st.entities := by
  cases hopp : get_opportunity st i with
  | none => simp only [update_opportunity_score, hopp]
  | some opp =>
    simp only [update_opportunity_score, hopp]
    split <;> rfl

lemma update_score_articles (st : DBState) (now i : ℤ) :
    (update_opportunity_score st now i).1.articles = st.articles := by
  cases hopp : get_opportunity st i with
  | none => simp only [update_opportunity_score, hopp]
  | some opp =>
    simp only [update_opportunity_score, hopp]
    split <;> rfl

/-- Inverting a successful joined fetch: the row is stored under the id
and its entity row exists. -/
lemma get_opportunity_inv (st : DBState) (i : ℤ) (opp : Opportunity)
    (h : get_opportunity st i = some opp) :
    lookupAssoc st.opportunities i = some opp
    ∧ (lookupAssoc st.entities opp.entity_id).isSome = true := by
  unfold get_opportunity at h
  cases hrow : lookupAssoc st.opportunities i with
  | none => rw [hrow] at h; exact Option.noConfusion h
  | some o =>
    rw [hrow] at h
    have h2 : (if (lookupAssoc st.entities o.entity_id).isSome = true then some o
        else none) = some opp := h
    by_cases hj : (lookupAssoc st.entities o.entity_id).isSome = true
    · rw [if_pos hj] at h2
      have ho : o = opp := Option.some.inj h2
      rw [ho] at hj
      exact ⟨h2, hj⟩
    · rw [if_neg hj] at h2
      exact Option.noConfusion h2

lemma get_opportunity_update_score_ne (st : DBState) (now i j : ℤ) (hij : j ≠ i) :
    get_opportunity (update_opportunity_score st now i).1 j = get_opportunity st j := by
  cases hopp : get_opportunity st i with
  | none => simp only [update_opportunity_score, hopp]
  | some opp =>
    simp only [update_opportunity_score, hopp]
    split
    · simp only [get_opportunity, add_activity_log, update_opportunity]
      rw [lookupAssoc_map_update_ne st.opportunities i j _ _ hij]
    · rfl

/-- After `update_opportunity_score` finds a record, both the returned
record and the persisted record carry the freshly recomputed heat score
and its priority classification. -/
lemma update_score_result (st : DBState) (now i : ℤ) (opp : Opportunity)
    (hopp : get_opportunity st i = some opp) :
    (update_opportunity_score st now i).2 =
      some { opp with
        heat_score := calculate_heat_score opp (some (get_opportunity_articles st i))
          (get_entity st opp.entity_id) now,
        priority := determine_priority (calculate_heat_score opp
          (some (get_opportunity_articles st i)) (get_entity st opp.entity_id) now) }
    ∧ get_opportunity (update_opportunity_score st now i).1 i =
      some { opp with
        heat_score := calculate_heat_score opp (some (get_opportunity_articles st i))
          (get_entity st opp.entity_id) now,
        priority := determine_priority (calculate_heat_score opp
          (some (get_opportunity_articles st i)) (get_entity st opp.entity_id) now) } := by
  obtain ⟨hrow, hjoin⟩ := get_opportunity_inv st i opp hopp
  constructor
  · simp only [update_opportunity_score, hopp]
  · simp only [update_opportunity_score, hopp]
    split
    · have hself := lookupAssoc_map_update_self st.opportunities i
        (calculate_heat_score opp (some (get_opportunity_articles st i))
          (get_entity st opp.entity_id) now)
        (determine_priority (calculate_heat_score opp
          (some (get_opportunity_articles st i)) (get_entity st opp.entity_id) now))
        opp hrow
      simp only [get_opportunity, add_activity_log, update_opportunity, hself]
      simp [hjoin]
    · next hch =>
      push_neg at hch
      rw [hch.2, hch.1]
      exact hopp

/-- The audit log grows by exactly one entry when the recomputed values
differ from the stored ones, and is untouched otherwise. -/
lemma update_score_log_length (st : DBState) (now i : ℤ) (opp : Opportunity)
    (hopp : get_opportunity st i = some opp) :
    (update_opportunity_score st now i).1.activity_log.length =
      (if calculate_heat_score opp (some (get_opportunity_articles st i))
            (get_entity st opp.entity_id) now ≠ opp.heat_score
          ∨ determine_priority (calculate_heat_score opp
            (some (get_opportunity_articles st i)) (get_entity st opp.entity_id) now)
            ≠ opp.priority
        then st.activity_log.length + 1
        else st.activity_log.length) := by
  simp only [update_opportunity_score, hopp]
  split
  · simp [add_activity_log, update_opportunity]
  · rfl

/-- C4: after every `update_opportunity_score` call that found its
opportunity, the persisted record satisfies
`priority = determine_priority heat_score`, whatever was stored before. -/
theorem update_preserves_priority_invariant (st : DBState) (now opportunity_id : ℤ)
    (hfound : (update_opportunity_score st now opportunity_id).2.isSome = true) :
    ∀ o : Opportunity,
      get_opportunity (update_opportunity_score st now opportunity_id).1 opportunity_id
        = some o →
      o.priority = determine_priority o.heat_score := by
  intro o ho
  cases hopp : get_opportunity st opportunity_id with
  | none =>
    rw [show update_opportunity_score st now opportunity_id = (st, none) from by
      simp [update_opportunity_score, hopp]] at hfound
    simp at hfound
  | some opp =>
    obtain ⟨-, h1⟩ := update_score_result st now opportunity_id opp hopp
    rw [h1] at ho
    obtain rfl := Option.some.inj ho
    rfl

/-- C4 witness: a concrete one-record database whose stored priority is
stale; after the call the persisted record is classified consistently. -/
theorem update_preserves_priority_invariant_witness :
    (⟨315 / 10, "low", none, none, 5⟩ : Opportunity).priority
      = determine_priority (⟨315 / 10, "low", none, none, 5⟩ : Opportunity).heat_score := by
  refine update_preserves_priority_invariant
    ⟨[(1, ⟨10, "low", none, none, 5⟩)], [(5, ⟨none, none⟩)], [], []⟩ 0 1 ?_ _ ?_
  · rw [(update_score_result ⟨[(1, ⟨10, "low", none, none, 5⟩)], [(5, ⟨none, none⟩)], [], []⟩
      0 1 ⟨10, "low", none, none, 5⟩ (by simp [get_opportunity, lookupAssoc])).1]
    rfl
  · rw [(update_score_result ⟨[(1, ⟨10, "low", none, none, 5⟩)], [(5, ⟨none, none⟩)], [], []⟩
      0 1 ⟨10, "low", none, none, 5⟩ (by simp [get_opportunity, lookupAssoc])).2]
    norm_num [get_opportunity_articles, get_entity, lookupAssoc, calculate_heat_score,
      calculate_recency_score, calculate_article_count_score, calculate_severity_score,
      entitySizeOrDefault, calculate_entity_size_score, popScore, budgetScore,
      articleCountOf, round1, determine_priority]

/-- C8 counterexample: `update_opportunity_score` is not idempotent. On a
database holding one opportunity (stored heat 10, entity with population
600000 present, no articles, no issue type), the first call persists
39.5/`low`; the second call, with no underlying data change, reads the
overwritten heat score back as the keyword sub-score and persists
49.8/`medium`, appending a second audit record. -/
theorem update_score_not_idempotent_counterexample :
    (update_opportunity_score
        ⟨[(1, ⟨10, "low", none, none, 5⟩)], [(5, ⟨some 600000, none⟩)], [], []⟩ 0 1).2.map
        Opportunity.heat_score = some (395 / 10)
    ∧ (update_opportunity_score
        (update_opportunity_score
          ⟨[(1, ⟨10, "low", none, none, 5⟩)], [(5, ⟨some 600000, none⟩)], [], []⟩ 0 1).1
        0 1).2.map Opportunity.heat_score = some (498 / 10)
    ∧ (update_opportunity_score
        ⟨[(1, ⟨10, "low", none, none, 5⟩)], [(5, ⟨some 600000, none⟩)], [], []⟩ 0 1).2.map
        Opportunity.priority = some "low"
    ∧ (update_opportunity_score
        (update_opportunity_score
          ⟨[(1, ⟨10, "low", none, none, 5⟩)], [(5, ⟨some 600000, none⟩)], [], []⟩ 0 1).1
        0 1).2.map Opportunity.priority = some "medium"
    ∧ (update_opportunity_score
        (update_opportunity_score
          ⟨[(1, ⟨10, "low", none, none, 5⟩)], [(5, ⟨some 600000, none⟩)], [], []⟩ 0 1).1
        0 1).1.activity_log.length
      = (update_opportunity_score
          ⟨[(1, ⟨10, "low", none, none, 5⟩)], [(5, ⟨some 600000, none⟩)], [], []⟩
          0 1).1.activity_log.length + 1 := by
  set st0 : DBState :=
    ⟨[(1, ⟨10, "low", none, none, 5⟩)], [(5, ⟨some 600000, none⟩)], [], []⟩ with hst0
  have h0 : get_opportunity st0 1 = some ⟨10, "low", none, none, 5⟩ := by
    simp [hst0, get_opportunity, lookupAssoc]
  have hns1 : calculate_heat_score ⟨10, "low", none, none, 5⟩
      (some (get_opportunity_articles st0 1))
      (get_entity st0 (⟨10, "low", none, none, 5⟩ : Opportunity).entity_id) 0 = 395 / 10 := by
    norm_num [hst0, get_opportunity_articles, get_entity, lookupAssoc, calculate_heat_score,
      calculate_recency_score, calculate_article_count_score, calculate_severity_score,
      entitySizeOrDefault, calculate_entity_size_score, popScore, budgetScore,
      articleCountOf, round1]
  have hpr1 : determine_priority (395 / 10) = "low" := by norm_num [determine_priority]
  have hA : (update_opportunity_score st0 0 1).2 = some ⟨395 / 10, "low", none, none, 5⟩ := by
    rw [(update_score_result st0 0 1 ⟨10, "low", none, none, 5⟩ h0).1, hns1, hpr1]
  have hB : get_opportunity (update_opportunity_score st0 0 1).1 1
      = some ⟨395 / 10, "low", none, none, 5⟩ := by
    rw [(update_score_result st0 0 1 ⟨10, "low", none, none, 5⟩ h0).2, hns1, hpr1]
  have hart1 : get_opportunity_articles (update_opportunity_score st0 0 1).1 1 = [] := by
    unfold get_opportunity_articles
    rw [update_score_articles]
    simp [hst0, lookupAssoc]
  have hent1 : get_entity (update_opportunity_score st0 0 1).1
      (⟨395 / 10, "low", none, none, 5⟩ : Opportunity).entity_id
      = some ⟨some 600000, none⟩ := by
    unfold get_entity
    rw [update_score_entities]
    simp [hst0, lookupAssoc]
  have hns2 : calculate_heat_score ⟨395 / 10, "low", none, none, 5⟩
      (some (get_opportunity_articles (update_opportunity_score st0 0 1).1 1))
      (get_entity (update_opportunity_score st0 0 1).1
        (⟨395 / 10, "low", none, none, 5⟩ : Opportunity).entity_id) 0 = 498 / 10 := by
    rw [hart1, hent1]
    norm_num [calculate_heat_score, calculate_recency_score, calculate_article_count_score,
      calculate_severity_score, entitySizeOrDefault, calculate_entity_size_score, popScore,
      budgetScore, articleCountOf, round1]
  have hpr2 : determine_priority (498 / 10) = "medium" := by norm_num [determine_priority]
  have hA2 : (update_opportunity_score (update_opportunity_score st0 0 1).1 0 1).2
      = some ⟨498 / 10, "medium", none, none, 5⟩ := by
    rw [(update_score_result (update_opportunity_score st0 0 1).1 0 1
      ⟨395 / 10, "low", none, none, 5⟩ hB).1, hns2, hpr2]
  have hL2 := update_score_log_length (update_opportunity_score st0 0 1).1 0 1
    ⟨395 / 10, "low", none, none, 5⟩ hB
  rw [hns2, hpr2] at hL2
  norm_num at hL2
  exact ⟨by rw [hA]; rfl, by rw [hA2]; rfl, by rw [hA]; rfl, by rw [hA2]; rfl, hL2⟩

/-- C8 (amended): `update_opportunity_score` performs no persistence
update and writes no audit record exactly when the recomputed
`(heat_score, priority)` pair equals the stored one — and on such a fixed
point a repeated call is a no-op returning the same pair. In general the
call is not idempotent: the aggregated heat overwrites `heat_score`,
which is reused as the keyword sub-score input of the next
recomputation, so a second call can change the score again and append a
second audit record. -/
theorem update_score_noop_on_fixed_point (st : DBState) (now i : ℤ) (opp : Opportunity)
    (hopp : get_opportunity st i = some opp)
    (hs : calculate_heat_score opp (some (get_opportunity_articles st i))
        (get_entity st opp.entity_id) now = opp.heat_score)
    (hp : determine_priority opp.heat_score = opp.priority) :
    update_opportunity_score st now i = (st, some opp)
    ∧ update_opportunity_score (update_opportunity_score st now i).1 now i = (st, some opp) := by
  have hpr : determine_priority (calculate_heat_score opp
      (some (get_opportunity_articles st i)) (get_entity st opp.entity_id) now)
      = opp.priority := by rw [hs, hp]
  have h1 : update_opportunity_score st now i = (st, some opp) := by
    simp only [update_opportunity_score, hopp]
    have hcond : ¬(calculate_heat_score opp (some (get_opportunity_articles st i))
        (get_entity st opp.entity_id) now ≠ opp.heat_score
      ∨ determine_priority (calculate_heat_score opp (some (get_opportunity_articles st i))
          (get_entity st opp.entity_id) now) ≠ opp.priority) := by
      push_neg
      exact ⟨hs, hpr⟩
    rw [if_neg hcond, hpr, hs]
  refine ⟨h1, ?_⟩
  rw [show (update_opportunity_score st now i).1 = st from congrArg Prod.fst h1]
  exact h1

/-- C8 witness: on a stored pair that is already a fixed point of the
recomputation (heat 43.1, priority `medium`, entity present with no
population or budget, remaining sub-inputs defaulted), the call leaves
the database exactly unchanged. -/
theorem update_score_noop_on_fixed_point_witness :
    update_opportunity_score
      ⟨[(1, ⟨431 / 10, "medium", none, none, 5⟩)], [(5, ⟨none, none⟩)], [], []⟩ 0 1
      = (⟨[(1, ⟨431 / 10, "medium", none, none, 5⟩)], [(5, ⟨none, none⟩)], [], []⟩,
        some ⟨431 / 10, "medium", none, none, 5⟩) :=
  (update_score_noop_on_fixed_point _ 0 1 ⟨431 / 10, "medium", none, none, 5⟩
    (by simp [get_opportunity, lookupAssoc])
    (by norm_num [get_opportunity_articles, get_entity, lookupAssoc, calculate_heat_score,
      calculate_recency_score, calculate_article_count_score, calculate_severity_score,
      entitySizeOrDefault, calculate_entity_size_score, popScore, budgetScore,
      articleCountOf, round1])
    (by norm_num [determine_priority])).1

/-- The change test that `recalculate_all_scores` applies to each visited
record: the heat score recomputed from the snapshot state differs from
the stored one. -/
def heatChanged (st : DBState) (now : ℤ) (p : ℤ × Opportunity) : Prop :=
  calculate_heat_score p.2 (some (get_opportunity_articles st p.1))
    (get_entity st p.2.entity_id) now ≠ p.2.heat_score

instance heatChanged_decidable (st : DBState) (now : ℤ) (p : ℤ × Opportunity) :
    Decidable (heatChanged st now p) :=
  inferInstanceAs (Decidable (¬ _ = _))

lemma recalc_fold (now : ℤ) (st0 : DBState) :
    ∀ (l : List (ℤ × Opportunity)) (st : DBState) (c : Nat),
      (∀ q ∈ l, get_opportunity st q.1 = some q.2) →
      st.entities = st0.entities → st.articles = st0.articles →
      (l.map Prod.fst).Nodup →
      (l.foldl
        (fun acc p =>
          let old_score := p.2.heat_score
          let r := update_opportunity_score acc.1 now p.1
          match r.2 with
          | some updated => (r.1, if updated.heat_score ≠ old_score then acc.2 + 1 else acc.2)
          | none => (r.1, acc.2))
        (st, c)).2
      = c + (l.filter fun p => decide (heatChanged st0 now p)).length := by
  intro l
  induction l with
  | nil => intro st c _ _ _ _; simp
  | cons p t ih =>
    intro st c hlook hent hart hnd
    simp only [List.map_cons, List.nodup_cons] at hnd
    have hp : get_opportunity st p.1 = some p.2 := hlook p (List.mem_cons_self ..)
    have harts : get_opportunity_articles st p.1 = get_opportunity_articles st0 p.1 := by
      unfold get_opportunity_articles; rw [hart]
    have hents : get_entity st p.2.entity_id = get_entity st0 p.2.entity_id := by
      unfold get_entity; rw [hent]
    have h2 := (update_score_result st now p.1 p.2 hp).1
    rw [harts, hents] at h2
    have hlook' : ∀ q ∈ t,
        get_opportunity (update_opportunity_score st now p.1).1 q.1 = some q.2 := by
      intro q hq
      have hne : q.1 ≠ p.1 := fun he => hnd.1 (he ▸ List.mem_map.mpr ⟨q, hq, rfl⟩)
      rw [get_opportunity_update_score_ne st now p.1 q.1 hne]
      exact hlook q (List.mem_cons_of_mem _ hq)
    have hent' : (update_opportunity_score st now p.1).1.entities = st0.entities := by
      rw [update_score_entities]; exact hent
    have hart' : (update_opportunity_score st now p.1).1.articles = st0.articles := by
      rw [update_score_articles]; exact hart
    simp only [List.foldl_cons, h2]
    by_cases hch : calculate_heat_score p.2 (some (get_opportunity_articles st0 p.1))
        (get_entity st0 p.2.entity_id) now = p.2.heat_score
    · have hcond : ¬(calculate_heat_score p.2 (some (get_opportunity_articles st0 p.1))
          (get_entity st0 p.2.entity_id) now ≠ p.2.heat_score) := by simp [hch]
      rw [if_neg hcond, ih _ c hlook' hent' hart' hnd.2]
      have hfil : List.filter (fun p => decide (heatChanged st0 now p)) (p :: t)
          = List.filter (fun p => decide (heatChanged st0 now p)) t := by
        simp [List.filter_cons, heatChanged, hch]
      rw [hfil]
    · have hcond : calculate_heat_score p.2 (some (get_opportunity_articles st0 p.1))
          (get_entity st0 p.2.entity_id) now ≠ p.2.heat_score := hch
      rw [if_pos hcond, ih _ (c + 1) hlook' hent' hart' hnd.2]
      have hfil : List.filter (fun p => decide (heatChanged st0 now p)) (p :: t)
          = p :: List.filter (fun p => decide (heatChanged st0 now p)) t := by
        simp [List.filter_cons, heatChanged, hch]
      rw [hfil]
      simp only [List.length_cons]
      omega

lemma opportunities_update_score_ne (st : DBState) (now i j : ℤ) (hij : j ≠ i) :
    lookupAssoc (update_opportunity_score st now i).1.opportunities j
      = lookupAssoc st.opportunities j := by
  cases hopp : get_opportunity st i with
  | none => simp only [update_opportunity_score, hopp]
  | some opp =>
    simp only [update_opportunity_score, hopp]
    split
    · simp only [add_activity_log, update_opportunity]
      exact lookupAssoc_map_update_ne st.opportunities i j _ _ hij
    · rfl

/-- Rows whose id is never visited by the recalculation fold keep their
stored values. -/
lemma recalc_fold_untouched (now j : ℤ) :
    ∀ (l : List (ℤ × Opportunity)) (st : DBState) (c : Nat),
      j ∉ l.map Prod.fst →
      lookupAssoc ((l.foldl
        (fun acc p =>
          let old_score := p.2.heat_score
          let r := update_opportunity_score acc.1 now p.1
          match r.2 with
          | some updated => (r.1, if updated.heat_score ≠ old_score then acc.2 + 1 else acc.2)
          | none => (r.1, acc.2))
        (st, c)).1).opportunities j
      = lookupAssoc st.opportunities j := by
  intro l
  induction l with
  | nil => intro st c _; rfl
  | cons p t ih =>
    intro st c hj
    simp only [List.map_cons, List.mem_cons, not_or] at hj
    have hne : j ≠ p.1 := hj.1
    simp only [List.foldl_cons]
    cases hr : (update_opportunity_score st now p.1).2 with
    | some updated =>
      simp only [hr]
      rw [ih _ _ hj.2]
      exact opportunities_update_score_ne st now p.1 j hne
    | none =>
      simp only [hr]
      rw [ih _ _ hj.2]
      exact opportunities_update_score_ne st now p.1 j hne

/-- C9 (amended): `recalculate_all_scores` visits exactly the
opportunities whose entity still exists — the entities join silently
excludes a record referencing a deleted entity, which is neither
recomputed nor reported and whose stored row is left untouched, while
its exclusion does not abort the batch (all other records are still
processed) — and returns the count of visited records whose
`heat_score` changed; a record whose `priority` alone changed is
persisted but not counted, and no per-record failure report is
produced. -/
theorem recalc_counts_heat_changes (st : DBState) (now : ℤ)
    (hnodup : (st.opportunities.map Prod.fst).Nodup) :
    (recalculate_all_scores st now).2 =
      ((get_all_opportunities st).filter fun p => decide (heatChanged st now p)).length
    ∧ (∀ j : ℤ, j ∉ (get_all_opportunities st).map Prod.fst →
        lookupAssoc (recalculate_all_scores st now).1.opportunities j
          = lookupAssoc st.opportunities j) := by
  have hnd2 : ((get_all_opportunities st).map Prod.fst).Nodup :=
    hnodup.sublist ((List.filter_sublist st.opportunities).map Prod.fst)
  have hlook : ∀ q ∈ get_all_opportunities st, get_opportunity st q.1 = some q.2 := by
    intro q hq
    simp only [get_all_opportunities] at hq
    have hq2 := List.mem_filter.mp hq
    unfold get_opportunity
    rw [lookupAssoc_nodup_mem st.opportunities hnodup hq2.1]
    simp [hq2.2]
  constructor
  · have h := recalc_fold now st (get_all_opportunities st) st 0 hlook rfl rfl hnd2
    unfold recalculate_all_scores
    rw [h]
    omega
  · intro j hj
    have h := recalc_fold_untouched now j (get_all_opportunities st) st 0 hj
    unfold recalculate_all_scores
    rw [h]

/-- C9 witness: a three-record batch — one record changes (10 → 31.5),
one is already at a fixed point (43.1), and one references a deleted
entity (id 99) and is excluded by the join; the run completes and
reports exactly one change. -/
theorem recalc_counts_heat_changes_witness :
    (recalculate_all_scores
      ⟨[(1, ⟨10, "low", none, none, 7⟩), (2, ⟨431 / 10, "medium", none, none, 7⟩),
        (3, ⟨99, "urgent", none, none, 99⟩)], [(7, ⟨none, none⟩)], [], []⟩ 0).2 = 1 := by
  rw [(recalc_counts_heat_changes _ 0 (by simp)).1]
  norm_num [get_all_opportunities, heatChanged, List.filter_cons, calculate_heat_score,
    calculate_recency_score, calculate_article_count_score, calculate_severity_score,
    entitySizeOrDefault, calculate_entity_size_score, popScore, budgetScore,
    articleCountOf, round1, get_opportunity_articles, get_entity, lookupAssoc]

/-- C9 counterexample: the claim says every opportunity is visited, the
returned count is of records whose values actually changed, and a
deleted-entity failure is reported rather than raised. Two concrete runs
refute it. (a) A record whose stored priority `low` is stale for its
fixed-point heat 43.1 (entity present) has its priority rewritten to
`medium` — its values actually change — yet the run returns 0, because
only heat-score changes are counted. (b) A record referencing the
deleted entity 99 is excluded by the entities join: the run returns the
database completely untouched with count 0 — the record is not visited
and no failure is reported. -/
theorem recalc_count_misses_priority_change :
    ((recalculate_all_scores
        ⟨[(1, ⟨431 / 10, "low", none, none, 5⟩)], [(5, ⟨none, none⟩)], [], []⟩ 0).2 = 0
      ∧ get_opportunity
          (recalculate_all_scores
            ⟨[(1, ⟨431 / 10, "low", none, none, 5⟩)], [(5, ⟨none, none⟩)], [], []⟩ 0).1 1
        = some ⟨431 / 10, "medium", none, none, 5⟩
      ∧ (⟨431 / 10, "medium", none, none, 5⟩ : Opportunity)
          ≠ ⟨431 / 10, "low", none, none, 5⟩)
    ∧ recalculate_all_scores ⟨[(2, ⟨10, "low", none, none, 99⟩)], [], [], []⟩ 0
        = (⟨[(2, ⟨10, "low", none, none, 99⟩)], [], [], []⟩, 0) := by
  constructor
  · set st0 : DBState :=
      ⟨[(1, ⟨431 / 10, "low", none, none, 5⟩)], [(5, ⟨none, none⟩)], [], []⟩ with hst0
    have h0 : get_opportunity st0 1 = some ⟨431 / 10, "low", none, none, 5⟩ := by
      simp [hst0, get_opportunity, lookupAssoc]
    have hns : calculate_heat_score ⟨431 / 10, "low", none, none, 5⟩
        (some (get_opportunity_articles st0 1))
        (get_entity st0 (⟨431 / 10, "low", none, none, 5⟩ : Opportunity).entity_id) 0
        = 431 / 10 := by
      norm_num [hst0, get_opportunity_articles, get_entity, lookupAssoc, calculate_heat_score,
        calculate_recency_score, calculate_article_count_score, calculate_severity_score,
        entitySizeOrDefault, calculate_entity_size_score, popScore, budgetScore,
        articleCountOf, round1]
    have hpr : determine_priority (431 / 10) = "medium" := by norm_num [determine_priority]
    have hres := update_score_result st0 0 1 ⟨431 / 10, "low", none, none, 5⟩ h0
    rw [hns, hpr] at hres
    have hops : get_all_opportunities st0 = [(1, ⟨431 / 10, "low", none, none, 5⟩)] := by
      simp [hst0, get_all_opportunities, lookupAssoc]
    refine ⟨?_, ?_, by simp⟩
    · unfold recalculate_all_scores
      rw [hops]
      simp only [List.foldl_cons, List.foldl_nil, hres.1]
      norm_num
    · unfold recalculate_all_scores
      rw [hops]
      simp only [List.foldl_cons, List.foldl_nil, hres.1]
      exact hres.2
  · unfold recalculate_all_scores
    have hvis : get_all_opportunities ⟨[(2, ⟨10, "low", none, none, 99⟩)], [], [], []⟩
        = [] := by
      simp [get_all_opportunities, lookupAssoc]
    rw [hvis]
    rfl

end ProcurementIntel
